import Mathlib

/-!
Shallow embedding of the sealer k0s runtime (package `k0s`, file with
`Runtime`, `CopyJoinToken`, `JoinCommand`, `sendFileToHosts`,
`WaitSSHReady`, `getClusterMetadata`, `getKubeVersion`, `checkList`,
`newK0sRuntime`).  Remote SSH effects are modelled by oracles: a record of
functions giving, per host, the outcome of client creation, of a file
copy, of a remote command, and of a ping attempt.  Go `error` values are
modelled by `Option GoError` / `Except GoError`; a Go `nil` error is
`Except.ok`.
-/

/-- A host IP (Go `net.IP`), abstract. -/
abbrev IP := String

/-- A Go `error` value (non-nil case): just its message. -/
structure GoError where
  msg : String
deriving DecidableEq, Repr

/-- Result of a Go call returning `(α, error)` where on error the α value
is discarded by callers. -/
abbrev GoResult (α : Type) := Except GoError α

/-- Role string constant `ControllerRole` of the k0s package. -/
def ControllerRole : String := "controller"

/-- Role string constant `WorkerRole` of the k0s package. -/
def WorkerRole : String := "worker"

/-- Modelled from the spec: the constant `DefaultK0sControllerJoin` is
declared outside the given source file; the spec names it the well-known
`controller_join_path` consumed by the controller join plan. -/
def DefaultK0sControllerJoin : String := "controller_join_path"

/-- Modelled from the spec: the constant `DefaultK0sWorkerJoin` is
declared outside the given source file; the spec names it the well-known
`worker_join_path` consumed by the worker join plan. -/
def DefaultK0sWorkerJoin : String := "worker_join_path"

/-- Modelled from the spec: the constant `DefaultK0sConfigPath` is
declared outside the given source file; the spec's on-host layout has the
distribution config at `/etc/<distribution>/config.yaml`. -/
def DefaultK0sConfigPath : String := "/etc/k0s/config.yaml"

/-- Modelled from the spec: the constant `ExternalCRI` is declared outside
the given source file; it is the external container runtime socket path
provided by configuration. -/
def ExternalCRI : String := "external_cri_socket"

/-- Modelled from the spec: the constant `RuntimeFlag` is declared outside
the given source file; it is the distribution flag `k0s`. -/
def RuntimeFlag : String := "k0s"

/-- Modelled from the spec: the constant `VersionCmd` is declared outside
the given source file; it is the command whose stdout yields the version. -/
def VersionCmd : String := "k0s version"

/-- `registry.Config` as used by `JoinCommand`: `Domain` and `Port`. -/
structure RegistryConfig where
  Domain : String
  Port : String
deriving DecidableEq, Repr

/-- The `runtime.Installer` interface; the k0s constructor only ever
produces the nil interface value, modelled as `none : Option Installer`. -/
structure Installer where
  mk' ::
deriving DecidableEq, Repr

/-- The part of `v2.Cluster` read by `checkList`: `Spec.Hosts` (whose
elements are irrelevant to this file, only the count matters) and the
result of `GetMaster0IP()` (a nil-able `net.IP`). -/
structure Cluster where
  hosts : List IP
  master0IP : Option IP
deriving DecidableEq, Repr

/-- `runtime.Metadata` as written by `getClusterMetadata`: the zero value
has empty `Version` and empty `ClusterRuntime`. -/
structure Metadata where
  Version : String
  ClusterRuntime : String
deriving DecidableEq, Repr

/-- Outcome of one iteration of the `WaitSSHReady` retry loop on a host:
`getHostSSHClient` fails, or the client is obtained and `Ping` fails, or
the client is obtained and `Ping` succeeds. -/
inductive AttemptOutcome
  | clientErr (e : GoError)
  | pingErr (e : GoError)
  | pingOk
deriving DecidableEq, Repr

/-- The SSH world, as oracles: per-host result of `getHostSSHClient`, of
`Copy(host, src, dst)`, of `Cmd(host, cmd)` (its stdout), and per-host
per-iteration outcome of the `WaitSSHReady` loop body. -/
structure SSHEnv where
  clientOf : IP → GoResult Unit
  copyResult : IP → String → String → GoResult Unit
  cmdResult : IP → String → GoResult String
  attempt : IP → Nat → AttemptOutcome

/-- `checkList`: error when `Spec.Hosts` is empty or `GetMaster0IP()` is
nil, in that order; otherwise nil. -/
def checkList (c : Cluster) : GoResult Unit :=
  if c.hosts.length = 0 then .error ⟨"hosts spec cannot be empty"⟩
  else if c.master0IP = none then .error ⟨"master0 IP cannot be empty"⟩
  else .ok ()

/-- `newK0sRuntime`: builds the Runtime value, reads the registry config
from the local image mount dir (local, infallible here), runs `checkList`,
and on success returns `nil, nil` (the commented-out `return k, nil` is
dead code; the todo comment says the new runtime interface is not yet
adapted). -/
def newK0sRuntime (c : Cluster) : GoResult (Option Installer) :=
  match checkList c with
  | .error e => .error e
  | .ok _ => .ok none

/-- `NewK0sRuntime`: the exported wrapper, delegates to `newK0sRuntime`. -/
def NewK0sRuntime (c : Cluster) : GoResult (Option Installer) :=
  newK0sRuntime c

/-- The join-token path selected by the `switch role` in `CopyJoinToken`:
controller gets the controller path, worker and every other role get the
worker path (the `default` branch). -/
def copyJoinTokenPath (role : String) : String :=
  if role = ControllerRole then DefaultK0sControllerJoin
  else if role = WorkerRole then DefaultK0sWorkerJoin
  else DefaultK0sWorkerJoin

/-- `CopyJoinToken` as written: gets the master0 SSH client (propagating
its error), selects the path, spawns one goroutine per host in an
errgroup to run `ssh.Copy(host, path, path)` — and then returns nil
without ever calling `eg.Wait()`, so the goroutine results never reach
the return value. -/
def CopyJoinToken (env : SSHEnv) (master0 : IP) (role : String)
    (hosts : List IP) : GoResult Unit :=
  match env.clientOf master0 with
  | .error e => .error e
  | .ok _ =>
    let _path := copyJoinTokenPath role
    .ok ()

/-- The results of the goroutines `CopyJoinToken` spawns (one per host):
computed here so the dropped errors can be exhibited.  When the master0
client fails no goroutine is spawned. -/
def copyJoinTokenTaskResults (env : SSHEnv) (master0 : IP) (role : String)
    (hosts : List IP) : List (GoResult Unit) :=
  match env.clientOf master0 with
  | .error _ => []
  | .ok _ =>
    hosts.map (fun h =>
      env.copyResult h (copyJoinTokenPath role) (copyJoinTokenPath role))

/-- `JoinCommand`: the literal command map of the source, with the
`fmt.Sprintf` holes filled from the registry config and the path
constants.  A role absent from the map yields the Go nil slice, modelled
as `[]`. -/
def JoinCommand (reg : RegistryConfig) (role : String) : List String :=
  if role = ControllerRole then
    ["mkdir -r /etc/k0s",
     "k0s config create > " ++ DefaultK0sConfigPath,
     "sed -i \x27/  images/ a\\    repository: \"" ++ reg.Domain ++ ":" ++
       reg.Port ++ "\"\x27 " ++ DefaultK0sConfigPath,
     "k0s install controller --token-file " ++ DefaultK0sControllerJoin ++
       " -c " ++ DefaultK0sConfigPath ++ " --cri-socket " ++ ExternalCRI,
     "k0s start"]
  else if role = WorkerRole then
    ["k0s install worker --cri-socket " ++ ExternalCRI ++ " --token-file " ++
       DefaultK0sWorkerJoin,
     "k0s start"]
  else []

/-- The per-host task body of `sendFileToHosts`: client creation and copy
failures are wrapped as "failed to send file"; the final `return err`
returns the nil error. -/
def sendFileTask (env : SSHEnv) (node : IP) (src dst : String) :
    GoResult Unit :=
  match env.clientOf node with
  | .error e => .error ⟨"failed to send file: " ++ e.msg⟩
  | .ok _ =>
    match env.copyResult node src dst with
    | .error e => .error ⟨"failed to send file: " ++ e.msg⟩
    | .ok _ => .ok ()

/-- `errgroup.Wait()`: waits for all tasks and returns the first non-nil
error among them (modelled in host-list order), or nil. -/
def firstError : List (GoResult Unit) → GoResult Unit
  | [] => .ok ()
  | .ok _ :: rest => firstError rest
  | .error e :: _ => .error e

/-- `sendFileToHosts`: fans the task out over the hosts in an errgroup
and returns `eg.Wait()`. -/
def sendFileToHosts (env : SSHEnv) (hosts : List IP) (src dst : String) :
    GoResult Unit :=
  firstError (hosts.map (fun n => sendFileTask env n src dst))

/-- The timeout error produced after the retry loop of `WaitSSHReady`. -/
def sshTimeoutErr (host : IP) : GoError :=
  ⟨"wait for [" ++ host ++
    "] ssh ready timeout, ensure that the IP address or password is correct"⟩

/-- The retry loop of `WaitSSHReady` on one host, with `remaining`
iterations left and `i` the current loop index: a client error returns
that error, a successful ping returns nil, a failed ping sleeps and
retries; when the loop is exhausted the timeout error is returned.  The
second component counts the `Ping` calls made. -/
def waitLoop (attempt : Nat → AttemptOutcome) (host : IP) :
    Nat → Nat → GoResult Unit × Nat
  | 0, _ => (.error (sshTimeoutErr host), 0)
  | n + 1, i =>
    match attempt i with
    | .clientErr e => (.error e, 0)
    | .pingOk => (.ok (), 1)
    | .pingErr _ =>
      let r := waitLoop attempt host n (i + 1)
      (r.1, r.2 + 1)

/-- The per-host worker of `WaitSSHReady`: the Go loop
`for i := 0; i < tryTimes; i++` runs `max(tryTimes, 0)` iterations
(`tryTimes` is a Go `int`). -/
def waitSSHReadyHost (env : SSHEnv) (tryTimes : Int) (host : IP) :
    GoResult Unit × Nat :=
  waitLoop (env.attempt host) host tryTimes.toNat 0

/-- `WaitSSHReady`: fans the per-host worker out in an errgroup and
returns `eg.Wait()`. -/
def WaitSSHReady (env : SSHEnv) (tryTimes : Int) (hosts : List IP) :
    GoResult Unit :=
  firstError (hosts.map (fun h => (waitSSHReadyHost env tryTimes h).1))

/-- `getKubeVersion`: master0 client (propagating errors), run
`VersionCmd` (propagating errors), and return
`strings.Split(string(bytes), "+")[0]` — the prefix of stdout strictly
before the first `+`, with no trimming. -/
def getKubeVersion (env : SSHEnv) (master0 : IP) : GoResult String :=
  match env.clientOf master0 with
  | .error e => .error e
  | .ok _ =>
    match env.cmdResult master0 VersionCmd with
    | .error e => .error e
    | .ok out => .ok (String.mk (out.data.takeWhile (fun c => c != '+')))

/-- `getClusterMetadata`: starts from the zero `Metadata`, reads the
version; on error returns the zero metadata together with the error, on
success fills `Version` and `ClusterRuntime` and returns a nil error. -/
def getClusterMetadata (env : SSHEnv) (master0 : IP) :
    Metadata × Option GoError :=
  match getKubeVersion env master0 with
  | .error e => (⟨"", ""⟩, some e)
  | .ok v => (⟨v, RuntimeFlag⟩, none)

/-- An effect performed on a remote host, for the frame conditions. -/
inductive RemoteAction
  | copy (host : IP) (src dst : String)
  | cmd (host : IP) (c : String)
deriving DecidableEq, Repr

/-- Modelled from the spec: the body of `joinMasters` is not in the given
source (only its caller `JoinMasters` is); per the spec, `JoinMasters` is
a no-op returning nil on empty input, and otherwise prepares hosts,
fetches a fresh token from master0 and applies the join plan — the
non-empty behaviour is abstracted as `body`.  The result carries the
remote actions performed. -/
def joinMasters (body : List IP → GoResult Unit × List RemoteAction)
    (ips : List IP) : GoResult Unit × List RemoteAction :=
  if ips.isEmpty then (.ok (), []) else body ips

/-- Modelled from the spec: the body of `joinNodes` is not in the given
source; same contract as `joinMasters` with the worker join plan. -/
def joinNodes (body : List IP → GoResult Unit × List RemoteAction)
    (ips : List IP) : GoResult Unit × List RemoteAction :=
  if ips.isEmpty then (.ok (), []) else body ips

/-- `JoinMasters`: logs when the list is non-empty (no remote effect) and
delegates to `joinMasters` unconditionally. -/
def JoinMasters (body : List IP → GoResult Unit × List RemoteAction)
    (ips : List IP) : GoResult Unit × List RemoteAction :=
  joinMasters body ips

/-- `JoinNodes`: logs when the list is non-empty (no remote effect) and
delegates to `joinNodes` unconditionally. -/
def JoinNodes (body : List IP → GoResult Unit × List RemoteAction)
    (ips : List IP) : GoResult Unit × List RemoteAction :=
  joinNodes body ips

/-- Decidable equality of Go results, for concrete evaluation. -/
instance {ε α : Type} [DecidableEq ε] [DecidableEq α] : DecidableEq (Except ε α)
  | .error a, .error b =>
    if h : a = b then .isTrue (h ▸ rfl)
    else .isFalse (fun he => h (Except.error.inj he))
  | .error _, .ok _ => .isFalse Except.noConfusion
  | .ok _, .error _ => .isFalse Except.noConfusion
  | .ok a, .ok b =>
    if h : a = b then .isTrue (h ▸ rfl)
    else .isFalse (fun he => h (Except.ok.inj he))

/-- The spec's notion of a trimmed string (leading and trailing whitespace
removed), used to compare `getKubeVersion` against the spec's `ReadVersion`
contract. -/
def specTrimmed (s : String) : String :=
  String.mk
    (((s.data.dropWhile Char.isWhitespace).reverse.dropWhile
        Char.isWhitespace).reverse)

/-- An SSH world where every client is obtained, every copy succeeds,
every command prints `out`, and every ping succeeds. -/
def okEnv (out : String) : SSHEnv :=
  ⟨fun _ => .ok (), fun _ _ _ => .ok (), fun _ _ => .ok out,
   fun _ _ => .pingOk⟩

/-- An SSH world where copies to host `bad` fail and everything else
succeeds. -/
def badCopyEnv (bad : IP) : SSHEnv :=
  ⟨fun _ => .ok (),
   fun h _ _ => if h = bad then .error ⟨"copy failed"⟩ else .ok (),
   fun _ _ => .ok "", fun _ _ => .pingOk⟩

/-- `true` on a non-nil Go error result. -/
def isError : GoResult Unit → Bool
  | .error _ => true
  | .ok _ => false

/-- `errgroup.Wait` over mapped tasks returns the result of the first
failing element, and nil when none fails. -/
theorem firstError_map_eq_find (f : IP → GoResult Unit) (l : List IP) :
    firstError (l.map f) =
      (match l.find? (fun n => isError (f n)) with
       | none => .ok ()
       | some n => f n) := by
  induction l with
  | nil => rfl
  | cons a t ih =>
    cases hfa : f a with
    | ok u =>
      cases u
      simp only [List.map_cons, hfa, List.find?_cons, isError, cond_false,
        firstError, ih]
    | error e =>
      simp only [List.map_cons, hfa, List.find?_cons, isError, cond_true,
        firstError]

/-- `errgroup.Wait` over mapped tasks is nil exactly when every task is
nil. -/
theorem firstError_map_ok_iff (f : IP → GoResult Unit) (l : List IP) :
    firstError (l.map f) = .ok () ↔ ∀ n ∈ l, f n = .ok () := by
  rw [firstError_map_eq_find]
  cases hfind : l.find? (fun n => isError (f n)) with
  | none =>
    simp only [List.find?_eq_none] at hfind
    constructor
    · intro _ n hn
      have := hfind n hn
      cases hfn : f n with
      | ok u => cases u; rfl
      | error e => simp [isError, hfn] at this
    · intro _; rfl
  | some n =>
    have hmem := List.mem_of_find?_eq_some hfind
    have hpn := List.find?_some hfind
    constructor
    · intro h
      have h' : f n = .ok () := h
      rw [h'] at hpn
      simp [isError] at hpn
    · intro h
      have h' := h n hmem
      rw [h'] at hpn
      simp [isError] at hpn

/-- If the first `k` loop iterations are failed pings and iteration `k`
(within the `n` iterations left, current index `i`) is a successful ping,
the retry loop returns nil after exactly `k + 1` pings. -/
theorem waitLoop_pingOk (attempt : Nat → AttemptOutcome) (host : IP) :
    ∀ (n i k : Nat), k < n → attempt (i + k) = .pingOk →
      (∀ j, j < k → ∃ e, attempt (i + j) = .pingErr e) →
      waitLoop attempt host n i = (.ok (), k + 1) := by
  intro n
  induction n with
  | zero => intro i k hk _ _; exact absurd hk (Nat.not_lt_zero k)
  | succ n ih =>
    intro i k hk hok hprev
    cases k with
    | zero =>
      have h0 : attempt i = .pingOk := by simpa using hok
      simp [waitLoop, h0]
    | succ m =>
      obtain ⟨e, he⟩ := hprev 0 (Nat.succ_pos m)
      have he' : attempt i = .pingErr e := by simpa using he
      have hok' : attempt (i + 1 + m) = .pingOk := by
        rw [show i + 1 + m = i + (m + 1) by omega]
        exact hok
      have hprev' : ∀ j, j < m → ∃ e, attempt (i + 1 + j) = .pingErr e := by
        intro j hj
        obtain ⟨e', he''⟩ := hprev (j + 1) (by omega)
        exact ⟨e', by rw [show i + 1 + j = i + (j + 1) by omega]; exact he''⟩
      have hrec := ih (i + 1) m (by omega) hok' hprev'
      simp [waitLoop, he', hrec]

/-- C1: `CopyJoinToken` does not wait on its concurrent per-host copies
and drops their errors: with the copy to 10.0.0.2 failing, the call still
returns the nil error while the spawned task's result is an error —
contradicting the claim that it returns a non-nil error whenever a
per-host copy fails. -/
theorem copyJoinToken_drops_copy_errors :
    CopyJoinToken (badCopyEnv "10.0.0.2") "10.0.0.1" WorkerRole
      ["10.0.0.2"] = .ok () ∧
    copyJoinTokenTaskResults (badCopyEnv "10.0.0.2") "10.0.0.1" WorkerRole
      ["10.0.0.2"] = [.error ⟨"copy failed"⟩] := by
  decide

/-- C2: whenever the cluster passes `checkList`, `NewK0sRuntime` returns
the nil installer together with the nil error. -/
theorem newK0sRuntime_nil_installer (c : Cluster)
    (h : checkList c = .ok ()) : NewK0sRuntime c = .ok none := by
  unfold NewK0sRuntime newK0sRuntime
  rw [h]

/-- Witness for C2 on a concrete one-host cluster. -/
theorem newK0sRuntime_nil_installer_witness :
    checkList ⟨["10.0.0.1"], some "10.0.0.1"⟩ = .ok () ∧
    NewK0sRuntime ⟨["10.0.0.1"], some "10.0.0.1"⟩ = .ok none :=
  ⟨by decide,
   newK0sRuntime_nil_installer ⟨["10.0.0.1"], some "10.0.0.1"⟩ (by decide)⟩

/-- C3 counterexample: for the unknown role "rogue", `JoinCommand`
returns the nil (empty) command list, not the worker command sequence
(which is non-empty), refuting the claim that the driver behaves as for
role worker in `JoinCommand` too. -/
theorem joinCommand_unknown_role_is_nil :
    JoinCommand ⟨"sea.hub", "5000"⟩ "rogue" = [] ∧
    JoinCommand ⟨"sea.hub", "5000"⟩ WorkerRole ≠ [] := by
  decide

/-- C3 amended: for every role other than controller and worker,
`CopyJoinToken` selects the worker join-token path, but `JoinCommand`
returns the nil (empty) command list rather than the worker sequence. -/
theorem unknown_role_defaults (role : String) (reg : RegistryConfig)
    (h1 : role ≠ ControllerRole) (h2 : role ≠ WorkerRole) :
    copyJoinTokenPath role = DefaultK0sWorkerJoin ∧
    JoinCommand reg role = [] := by
  constructor <;> simp [copyJoinTokenPath, JoinCommand, h1, h2]

/-- Witness for the amended C3 at the concrete role "rogue". -/
theorem unknown_role_defaults_witness :
    copyJoinTokenPath "rogue" = DefaultK0sWorkerJoin ∧
    JoinCommand ⟨"sea.hub", "5000"⟩ "rogue" = [] :=
  unknown_role_defaults "rogue" ⟨"sea.hub", "5000"⟩ (by decide) (by decide)

/-- C4 counterexample: with version-command stdout `"v1.23.8\n"`
(no `+`), `getKubeVersion` returns the stdout unchanged, which differs
from the trimmed string `"v1.23.8"` the claim promises. -/
theorem getKubeVersion_untrimmed :
    getKubeVersion (okEnv "v1.23.8\n") "10.0.0.1" = .ok "v1.23.8\n" ∧
    specTrimmed "v1.23.8\n" = "v1.23.8" ∧
    ("v1.23.8\n" : String) ≠ "v1.23.8" := by
  decide

/-- C4 amended: for every stdout of the version command, `getKubeVersion`
returns (untrimmed) the prefix of stdout strictly before the first `+`:
a `+`-free string which, followed by the `+`-headed (or empty) remainder
of stdout, reconstitutes stdout; when stdout has no `+` this prefix is
the whole stdout unchanged. -/
theorem getKubeVersion_plus_prefix (env : SSHEnv) (m0 : IP) (out : String)
    (hc : env.clientOf m0 = .ok ())
    (ho : env.cmdResult m0 VersionCmd = .ok out) :
    ∃ r, getKubeVersion env m0 = .ok r ∧
      r.data ++ out.data.dropWhile (fun c => c != '+') = out.data ∧
      (∀ c ∈ r.data, c ≠ '+') := by
  refine ⟨String.mk (out.data.takeWhile (fun c => c != '+')), ?_, ?_, ?_⟩
  · unfold getKubeVersion
    rw [hc, ho]
  · exact List.takeWhile_append_dropWhile _ _
  · intro c hmem
    have hp := List.mem_takeWhile_imp hmem
    simpa using hp

/-- Witness for the amended C4 on a concrete stdout with buildmeta. -/
theorem getKubeVersion_plus_prefix_witness :
    ∃ r, getKubeVersion (okEnv "v1.23.8+k0s") "10.0.0.1" = .ok r ∧
      r.data ++ "v1.23.8+k0s".data.dropWhile (fun c => c != '+') =
        "v1.23.8+k0s".data ∧
      (∀ c ∈ r.data, c ≠ '+') :=
  getKubeVersion_plus_prefix (okEnv "v1.23.8+k0s") "10.0.0.1" "v1.23.8+k0s"
    rfl rfl

/-- C5: runtime construction fails (with an error, and without any
remote-host effect: `newK0sRuntime` takes no SSH world at all) whenever
the host list is empty or the master0 IP is nil, and `checkList` passes
on every cluster with non-empty hosts and a master0 IP. -/
theorem checkList_gate (c : Cluster) :
    ((c.hosts.length = 0 ∨ c.master0IP = none) →
      ∃ e, NewK0sRuntime c = .error e) ∧
    (c.hosts.length ≠ 0 → c.master0IP ≠ none → checkList c = .ok ()) := by
  unfold NewK0sRuntime newK0sRuntime checkList
  constructor
  · rintro (h | h)
    · exact ⟨⟨"hosts spec cannot be empty"⟩, by simp [h]⟩
    · by_cases hl : c.hosts.length = 0
      · exact ⟨⟨"hosts spec cannot be empty"⟩, by simp [hl]⟩
      · exact ⟨⟨"master0 IP cannot be empty"⟩, by simp [hl, h]⟩
  · intro h1 h2
    simp [h1, h2]

/-- Witness for C5: an empty cluster is rejected, a concrete one-host
cluster passes. -/
theorem checkList_gate_witness :
    (∃ e, NewK0sRuntime ⟨[], none⟩ = .error e) ∧
    checkList ⟨["10.0.0.1"], some "10.0.0.1"⟩ = .ok () :=
  ⟨(checkList_gate ⟨[], none⟩).1 (Or.inl rfl),
   (checkList_gate ⟨["10.0.0.1"], some "10.0.0.1"⟩).2 (by decide)
     (by decide)⟩

/-- C6: the controller join plan overrides the image repository with the
registry Domain:Port, installs the controller with the controller token
file, the config file and the external CRI socket, then starts the
service; the worker plan installs the worker with the worker token file
and the external CRI socket, then starts the service. -/
theorem joinCommand_plans (reg : RegistryConfig) :
    JoinCommand reg ControllerRole =
      ["mkdir -r /etc/k0s",
       "k0s config create > /etc/k0s/config.yaml",
       "sed -i \x27/  images/ a\\    repository: \"" ++ reg.Domain ++ ":" ++
         reg.Port ++ "\"\x27 /etc/k0s/config.yaml",
       "k0s install controller --token-file controller_join_path -c /etc/k0s/config.yaml --cri-socket external_cri_socket",
       "k0s start"] ∧
    JoinCommand reg WorkerRole =
      ["k0s install worker --cri-socket external_cri_socket --token-file worker_join_path",
       "k0s start"] := by
  constructor <;>
    simp [JoinCommand, ControllerRole, WorkerRole, DefaultK0sConfigPath,
      DefaultK0sControllerJoin, DefaultK0sWorkerJoin, ExternalCRI,
      String.append_assoc]

/-- C7: `JoinMasters` and `JoinNodes` on an empty IP list return the nil
error and perform no remote action, for every possible non-empty-branch
behaviour. -/
theorem joinEmpty_noop
    (bodyM bodyN : List IP → GoResult Unit × List RemoteAction) :
    JoinMasters bodyM [] = (.ok (), []) ∧
    JoinNodes bodyN [] = (.ok (), []) :=
  ⟨rfl, rfl⟩

/-- C8: `getClusterMetadata` returns metadata carrying the version read
from master0 and the k0s runtime flag with a nil error; when the version
read fails it returns that error together with the zero metadata (its
`Version` unset). -/
theorem getClusterMetadata_reads_version (env : SSHEnv) (m0 : IP) :
    (∀ v, getKubeVersion env m0 = .ok v →
      getClusterMetadata env m0 = (⟨v, RuntimeFlag⟩, none)) ∧
    (∀ e, getKubeVersion env m0 = .error e →
      getClusterMetadata env m0 = (⟨"", ""⟩, some e)) := by
  unfold getClusterMetadata
  constructor
  · intro v h
    rw [h]
  · intro e h
    rw [h]

/-- Witness for C8 on a concrete version stdout. -/
theorem getClusterMetadata_reads_version_witness :
    getKubeVersion (okEnv "v1.23.8+k0s") "10.0.0.1" = .ok "v1.23.8" ∧
    getClusterMetadata (okEnv "v1.23.8+k0s") "10.0.0.1" =
      (⟨"v1.23.8", RuntimeFlag⟩, none) :=
  ⟨by decide,
   (getClusterMetadata_reads_version (okEnv "v1.23.8+k0s") "10.0.0.1").1
     "v1.23.8" (by decide)⟩

/-- C9: `sendFileToHosts` aggregates all per-host copy tasks: it returns
nil exactly when every per-host task succeeds, and otherwise returns the
error of the first failing host in the list. -/
theorem sendFileToHosts_waits_and_aggregates (env : SSHEnv)
    (hosts : List IP) (src dst : String) :
    (sendFileToHosts env hosts src dst = .ok () ↔
      ∀ n ∈ hosts, sendFileTask env n src dst = .ok ()) ∧
    sendFileToHosts env hosts src dst =
      (match hosts.find? (fun n => isError (sendFileTask env n src dst)) with
       | none => .ok ()
       | some n => sendFileTask env n src dst) := by
  unfold sendFileToHosts
  exact ⟨firstError_map_ok_iff _ hosts, firstError_map_eq_find _ hosts⟩

/-- C10: the `WaitSSHReady` worker for a host returns nil as soon as one
ping succeeds within the first `tryTimes` loop iterations (having pinged
exactly that often), and for `tryTimes ≤ 0` it returns the timeout error
having pinged zero times. -/
theorem waitSSHReady_ping_retry (env : SSHEnv) (host : IP)
    (tryTimes : Int) :
    (∀ i, i < tryTimes.toNat → env.attempt host i = .pingOk →
      (∀ j, j < i → ∃ e, env.attempt host j = .pingErr e) →
      waitSSHReadyHost env tryTimes host = (.ok (), i + 1)) ∧
    (tryTimes ≤ 0 →
      waitSSHReadyHost env tryTimes host =
        (.error (sshTimeoutErr host), 0)) := by
  constructor
  · intro i hi hok hprev
    unfold waitSSHReadyHost
    exact waitLoop_pingOk (env.attempt host) host tryTimes.toNat 0 i hi
      (by simpa using hok) (by simpa using hprev)
  · intro h
    unfold waitSSHReadyHost
    rw [Int.toNat_of_nonpos h]
    rfl

/-- Witness for C10: an always-answering host succeeds on the first ping
with `tryTimes = 3`; with `tryTimes = 0` the timeout error is returned
with zero pings. -/
theorem waitSSHReady_ping_retry_witness :
    waitSSHReadyHost (okEnv "") 3 "10.0.0.2" = (.ok (), 1) ∧
    waitSSHReadyHost (okEnv "") 0 "10.0.0.2" =
      (.error (sshTimeoutErr "10.0.0.2"), 0) :=
  ⟨(waitSSHReady_ping_retry (okEnv "") "10.0.0.2" 3).1 0 (by decide) rfl
     (fun j hj => absurd hj (Nat.not_lt_zero j)),
   (waitSSHReady_ping_retry (okEnv "") "10.0.0.2" 0).2 (by decide)⟩
